import Mathlib

/-!
Shallow embedding of the sequencing/coordination core of the
Oriental CvD controller repository:

* `src/services/motor_controller.py` — `MotorController` (actuator
  controller state machine, completion monitors, stop, clear_alarm),
* `src/services/sequence_manager.py` — `SequenceManager` (orchestrator
  state machine, looping, stop/reset/clear-alarm handlers),
* `src/services/motor_driver.py` — `MotorDriver` (register-level command
  and status helpers).

Hardware reads/writes are modelled as explicit environments (functions of
the poll tick and driver index) and as emitted command traces; the asyncio
poll loops are modelled as fuel-indexed tick recursions, one tick per loop
iteration.
-/

/-- Enum `MotorState` from `motor_controller.py` (the per-station actuator
state; the spec calls it `ActuatorState`, and `error` renders `Fault`). -/
inductive MotorState where
  | disconnected
  | homing
  | ready
  | running
  | finished
  | error
deriving DecidableEq, Repr

/-- Enum `SystemState` from `sequence_manager.py` (the orchestrator state;
`error` renders the `Fault` of the spec). -/
inductive SystemState where
  | boot
  | homing
  | ready
  | standby
  | running
  | finished
  | stopped
  | error
deriving DecidableEq, Repr

/-- One call made to a `MotorDriver` instance, tagged with the index of the driver in `MotorController.drivers`.  Used to record the trace of hardware
commands a controller method issues. -/
inductive DriverCmd where
  | connect (i : Nat)
  | isHomeComplete (i : Nat)
  | startHoming (i : Nat)
  | readPosition (i : Nat)
  | startOp (i : Nat) (opNo : Nat)
  | stop (i : Nat)
  | returnToZero (i : Nat) (velocity : Nat)
  | clearAlarm (i : Nat)
deriving DecidableEq, Repr

/-- Per-motor bookkeeping of `MotorController._monitor_operation`: the
dict with keys operation_started, was_moving, finished. -/
structure MotorMState where
  operation_started : Bool
  was_moving : Bool
  finished : Bool
deriving DecidableEq, Repr

/-- The initial per-motor dict (all three flags `False`). -/
def initMState : MotorMState := ⟨false, false, false⟩

/-- One iteration of the per-motor body of `_monitor_operation` on a fresh
`moving` reading: already-finished motors are skipped; otherwise
`operation_started` and `was_moving` latch on a `True` reading, and
`finished` latches when the flags are set and `moving` reads `False`. -/
def stepMotor (m : MotorMState) (moving : Bool) : MotorMState :=
  if m.finished then m
  else
    { operation_started := m.operation_started || moving
      was_moving := m.was_moving || moving
      finished := (m.operation_started || moving) && (m.was_moving || moving) && !moving }

/-- The per-motor dict after the monitor has processed poll ticks
`0, 1, …, t-1`, given the `is_moving()` reading of the motor at each tick. -/
def mstate (mv : Nat → Bool) : Nat → MotorMState
  | 0 => initMState
  | t + 1 => stepMotor (mstate mv t) (mv t)

/-- Specification-side predicate: the motor read `moving == true` at some
tick strictly before `t`. -/
def movedBy (mv : Nat → Bool) (t : Nat) : Bool :=
  (List.range t).any (fun a => mv a)

/-- Specification-side predicate: a falling edge of `moving` occurred
strictly before tick `t` — some tick `b < t` read `moving == false`
after some earlier tick `a < b` read `moving == true`. -/
def fallenBy (mv : Nat → Bool) (t : Nat) : Bool :=
  (List.range t).any (fun b => !(mv b) && (List.range b).any (fun a => mv a))

/-- Per-station reading environment: `read i t` is what
`self.drivers[i].is_moving()` returns at poll tick `t`. -/
def readsAt (read : Nat → Nat → Bool) (n t : Nat) : List Bool :=
  (List.range n).map (fun i => read i t)

/-- The `motor_states` list built at the top of `_monitor_operation`. -/
def initStates (n : Nat) : List MotorMState := List.replicate n initMState

/-- One poll tick of the monitor over the whole motor list. -/
def stepAll (ms : List MotorMState) (reads : List Bool) : List MotorMState :=
  List.zipWith stepMotor ms reads

/-- The `all_finished` flag of the monitor after a tick. -/
def allFinished (ms : List MotorMState) : Bool := ms.all (fun m => m.finished)

/-- Observable outcome of a monitor run: the list of poll ticks at which
the completion callback fired, and the controller state when the loop
broke. -/
structure MonitorResult where
  callbackTicks : List Nat
  finalState : MotorState
deriving DecidableEq, Repr

/-- The poll loop of `_monitor_operation`, fuel-indexed: each unit of
fuel is one iteration; exhausting the fuel models `elapsed` exceeding the
hard ceiling (`elapsed > 60000`), which sets `MotorState.ERROR` and
breaks without firing the callback.  When `all_finished` holds the
callback fires once at the current tick and the state is set to `READY`
(the code passes through `FINISHED` and ends at `READY`). -/
def monitorFrom (read : Nat → Nat → Bool) (n : Nat)
    (ms : List MotorMState) (t : Nat) : Nat → MonitorResult
  | 0 => ⟨[], MotorState.error⟩
  | fuel + 1 =>
    let ms2 := stepAll ms (readsAt read n t)
    if allFinished ms2 then ⟨[t], MotorState.ready⟩
    else monitorFrom read n ms2 (t + 1) fuel

/-- Runs `_monitor_operation` from its initial `motor_states`. -/
def monitorRun (read : Nat → Nat → Bool) (n fuel : Nat) : MonitorResult :=
  monitorFrom read n (initStates n) 0 fuel

/-- Group-finish predicate after tick `t` has been processed: every motor
of the station has shown its falling edge among ticks `0 … t`. -/
def groupDone (read : Nat → Nat → Bool) (n t : Nat) : Bool :=
  (List.range n).all (fun i => fallenBy (read i) (t + 1))

/-- The hard timeout ceiling of `_monitor_operation`, in seconds: the
code aborts when `elapsed > 60000` (its own comment: 1000 minutes). -/
def operationTimeoutCeilingSec : Nat := 60000

/-- A generous upper bound, in seconds, for the phrase
"several minutes" of the spec (ten minutes). -/
def severalMinutesMaxSec : Nat := 600

/-- Per-motor bookkeeping of `MotorController._monitor_return_to_zero`:
the dict with keys motion_started, was_moving, finished. -/
structure RtzMState where
  motion_started : Bool
  was_moving : Bool
  finished : Bool
deriving DecidableEq, Repr

/-- The initial return-to-zero per-motor dict. -/
def initRtzMState : RtzMState := ⟨false, false, false⟩

/-- One iteration of the per-motor body of `_monitor_return_to_zero`. -/
def stepRtzMotor (m : RtzMState) (moving : Bool) : RtzMState :=
  if m.finished then m
  else
    { motion_started := m.motion_started || moving
      was_moving := m.was_moving || moving
      finished := (m.motion_started || moving) && (m.was_moving || moving) && !moving }

/-- Field-for-field reading of a return-to-zero per-motor dict as an
operation-monitor per-motor dict (`motion_started` ↦ `operation_started`). -/
def rtzToM (m : RtzMState) : MotorMState := ⟨m.motion_started, m.was_moving, m.finished⟩

/-- One poll tick of the return-to-zero monitor over the motor list. -/
def stepAllRtz (ms : List RtzMState) (reads : List Bool) : List RtzMState :=
  List.zipWith stepRtzMotor ms reads

/-- The `all_finished` flag of the return-to-zero monitor. -/
def allFinishedRtz (ms : List RtzMState) : Bool := ms.all (fun m => m.finished)

/-- The poll loop of `_monitor_return_to_zero`, fuel-indexed as for
`monitorFrom`; on group completion the return-to-zero-complete callback
fires once and the state is set to `READY`, and fuel exhaustion models
`elapsed > 120`, which sets `ERROR`. -/
def rtzMonitorFrom (read : Nat → Nat → Bool) (n : Nat)
    (ms : List RtzMState) (t : Nat) : Nat → MonitorResult
  | 0 => ⟨[], MotorState.error⟩
  | fuel + 1 =>
    let ms2 := stepAllRtz ms (readsAt read n t)
    if allFinishedRtz ms2 then ⟨[t], MotorState.ready⟩
    else rtzMonitorFrom read n ms2 (t + 1) fuel

/-- Runs `_monitor_return_to_zero` from its initial `motor_states`. -/
def rtzMonitorRun (read : Nat → Nat → Bool) (n fuel : Nat) : MonitorResult :=
  rtzMonitorFrom read n (List.replicate n initRtzMState) 0 fuel

/-- The hard timeout ceiling of `_monitor_return_to_zero`, in seconds
(`elapsed > 120`). -/
def rtzTimeoutCeilingSec : Nat := 120

/-- Observable effect of `MotorController.stop()`: the hardware commands
issued (in order), whether the active monitor future was cancelled,
whether a return-to-zero monitor was scheduled, and `self.state` when the
method returns. -/
structure StopResult where
  cmds : List DriverCmd
  monitorCancelled : Bool
  rtzMonitorStarted : Bool
  stateAfter : MotorState
deriving DecidableEq, Repr

/-- Embeds `MotorController.stop()` over `n` drivers.  `returnToZeroOnStop` is
`self.return_to_zero_on_stop`, `loopAvail` is whether
`self._event_loop is not None`, `stateBefore` is `self.state` at entry and
`monitorActive` is whether `self._monitor_task` is set.  The method cancels
any monitor, sends `driver.stop()` to every driver, and — when configured —
sends `driver.return_to_zero(velocity=5000)` to every driver and schedules
`_monitor_return_to_zero`; only when no return-to-zero monitor is scheduled
does it set `self.state = MotorState.READY` itself. -/
def ctrlStop (returnToZeroOnStop loopAvail : Bool) (n : Nat)
    (stateBefore : MotorState) (monitorActive : Bool) : StopResult :=
  let stopCmds := (List.range n).map DriverCmd.stop
  if returnToZeroOnStop then
    let rtzCmds := (List.range n).map (fun i => DriverCmd.returnToZero i 5000)
    if loopAvail then ⟨stopCmds ++ rtzCmds, monitorActive, true, stateBefore⟩
    else ⟨stopCmds ++ rtzCmds, monitorActive, false, MotorState.ready⟩
  else ⟨stopCmds, monitorActive, false, MotorState.ready⟩

/-- Observable effect of `MotorController.start_operation`. -/
structure StartOpResult where
  cmds : List DriverCmd
  monitorStarted : Bool
  stateAfter : MotorState
  currentOpAfter : Option Nat
deriving DecidableEq, Repr

/-- Embeds `MotorController.start_operation(op_no)` over `n` drivers: rejected
with only a warning unless `self.state == MotorState.READY`; on
acceptance it reads the position of every driver, sets `RUNNING` and
`current_operation`, issues `driver.start_operation(op_no)` to every
driver, and schedules `_monitor_operation` when the event loop is
available. -/
def ctrlStartOperation (opNo n : Nat) (loopAvail : Bool)
    (st : MotorState) (curOp : Option Nat) : StartOpResult :=
  if st ≠ MotorState.ready then ⟨[], false, st, curOp⟩
  else
    let readCmds := (List.range n).map DriverCmd.readPosition
    let startCmds := (List.range n).map (fun i => DriverCmd.startOp i opNo)
    ⟨readCmds ++ startCmds, loopAvail, MotorState.running, some opNo⟩

/-- Embeds `MotorController.clear_alarm()` over `n` drivers: sends
`driver.clear_alarm()` to every driver and leaves `self.state` untouched. -/
def ctrlClearAlarm (n : Nat) (st : MotorState) : MotorState × List DriverCmd :=
  (st, (List.range n).map DriverCmd.clearAlarm)

/-- Per-driver hardware environment seen during
`MotorController.initialize`: whether `driver.connect()` succeeds, what
`driver.is_home_complete()` returns, and whether
`driver.start_homing(timeout=100)` completes without raising. -/
structure DriverEnv where
  connectOk : Nat → Bool
  homeComplete : Nat → Bool
  homingOk : Nat → Bool

/-- Observable effect of `MotorController.initialize`. -/
structure InitResult where
  cmds : List DriverCmd
  readyCalled : Bool
  errorCalled : Bool
  stateAfter : MotorState
deriving DecidableEq, Repr

/-- The connect loop of `initialize`: connects drivers in order, stopping
at (and recording) the first failing `connect()`. -/
def connectAll (env : DriverEnv) : List Nat → List DriverCmd × Bool
  | [] => ([], true)
  | i :: rest =>
    if env.connectOk i then
      let r := connectAll env rest
      (DriverCmd.connect i :: r.1, r.2)
    else ([DriverCmd.connect i], false)

/-- The `all(driver.is_home_complete() for driver in self.drivers)` check
of `initialize`: a short-circuiting generator, stopping at the first
driver whose flag is `False`. -/
def allHomedCheck (env : DriverEnv) : List Nat → List DriverCmd × Bool
  | [] => ([], true)
  | i :: rest =>
    if env.homeComplete i then
      let r := allHomedCheck env rest
      (DriverCmd.isHomeComplete i :: r.1, r.2)
    else ([DriverCmd.isHomeComplete i], false)

/-- The sequential homing loop of `initialize`: re-checks
`is_home_complete()` per driver, homes the unhomed ones, and aborts at
the first homing failure (the exception leaves the loop). -/
def homeLoop (env : DriverEnv) : List Nat → List DriverCmd × Bool
  | [] => ([], true)
  | i :: rest =>
    if env.homeComplete i then
      let r := homeLoop env rest
      (DriverCmd.isHomeComplete i :: r.1, r.2)
    else if env.homingOk i then
      let r := homeLoop env rest
      (DriverCmd.isHomeComplete i :: DriverCmd.startHoming i :: r.1, r.2)
    else ([DriverCmd.isHomeComplete i, DriverCmd.startHoming i], false)

/-- Embeds the controller initialize() coroutine over `n` drivers.  Connects every
driver (first failure → `ERROR`, error callback); if
`self.homing_required`, homes whatever is not already homed (success →
final positions read, `READY`, ready callback; homing failure → `ERROR`,
error callback); otherwise goes straight to `READY` with the ready
callback. -/
def initializeCtrl (homingRequired : Bool) (n : Nat) (env : DriverEnv) : InitResult :=
  let idx := List.range n
  let c := connectAll env idx
  if !c.2 then ⟨c.1, false, true, MotorState.error⟩
  else if homingRequired then
    let h := allHomedCheck env idx
    if h.2 then ⟨c.1 ++ h.1, true, false, MotorState.ready⟩
    else
      let l := homeLoop env idx
      if l.2 then
        let pcmds := idx.map DriverCmd.readPosition
        ⟨c.1 ++ h.1 ++ l.1 ++ pcmds, true, false, MotorState.ready⟩
      else ⟨c.1 ++ h.1 ++ l.1, false, true, MotorState.error⟩
  else ⟨c.1, true, false, MotorState.ready⟩

/-- Orchestrator-owned mutable fields of `SequenceManager`: `self.state`,
`self.is_looping`, `self.cycle_count`. -/
structure SeqState where
  state : SystemState
  is_looping : Bool
  cycle_count : Nat
deriving DecidableEq, Repr

/-- Embeds `SequenceManager.on_stop_pressed()`: disables looping, stops the
controller, notifies/broadcasts, and sets `SystemState.STOPPED`.
`cycle_count` is not written. -/
def on_stop_pressed (s : SeqState) : SeqState :=
  { s with is_looping := false, state := SystemState.stopped }

/-- The synchronous effect of `SequenceManager.on_reset_pressed()`:
disables looping, stops the controller, notifies/broadcasts, and sets
`SystemState.HOMING` before awaiting `reset_to_home` (whose callbacks set
the later state).  `cycle_count` is not written. -/
def on_reset_pressed (s : SeqState) : SeqState :=
  { s with is_looping := false, state := SystemState.homing }

/-- Embeds `SequenceManager.on_start_pressed()`: rejected with a warning unless
`SystemState.READY`; on acceptance enables looping, sets `cycle_count` to
1, passes through `STANDBY` to `RUNNING`, and issues
`start_operation(op_no=0)`.  The second component records whether
`start_operation` was called. -/
def on_start_pressed (s : SeqState) : SeqState × Bool :=
  if s.state ≠ SystemState.ready then (s, false)
  else (⟨SystemState.running, true, 1⟩, true)

/-- Embeds `SequenceManager.on_clear_alarm_pressed()`.  `faultStillActive i` is
what `self.motor_controller.drivers[i].get_alarm_status()` would read
after the clear; the handler never reads it — it delegates to
`clear_alarm` (summarised by `ctrlClearAlarm`, which leaves the
controller state alone) and then sets `READY` whenever the system state
was `ERROR`, with no fault-flag confirmation. -/
def on_clear_alarm_pressed (faultStillActive : Nat → Bool) (n : Nat)
    (s : SeqState) : SeqState :=
  if s.state = SystemState.error then { s with state := SystemState.ready } else s

/-- The loop body of `SequenceManager._loop_next_cycle`: `flagAt k` is
the value `self.is_looping` reads at the k-th check (one check at the top
of each of the `int(loop_delay_sec)` countdown iterations, indexed by
`k`, plus the post-wait check), `remaining` is how many countdown
iterations are left.  A `False` reading at any check sets `READY` and
returns without starting anything; if every check reads `True`, the cycle
counter is incremented, the state set to `RUNNING`, and
`start_operation(op_no=0)` issued (second component `true`). -/
def loopNextCycleAux (flagAt : Nat → Bool) (k : Nat) (remaining : Nat)
    (s : SeqState) : SeqState × Bool :=
  match remaining with
  | 0 =>
    if flagAt k then
      ({ s with state := SystemState.running, cycle_count := s.cycle_count + 1 }, true)
    else ({ s with state := SystemState.ready }, false)
  | r + 1 =>
    if flagAt k then loopNextCycleAux flagAt (k + 1) r s
    else ({ s with state := SystemState.ready }, false)

/-- Embeds `SequenceManager._loop_next_cycle` with `int(self.loop_delay_sec) = d`. -/
def loop_next_cycle (flagAt : Nat → Bool) (d : Nat) (s : SeqState) : SeqState × Bool :=
  loopNextCycleAux flagAt 0 d s

/-- Constant `OutputSignal.MOVE` from `cvd_define.py` (bit 13). -/
def OutputSignal_MOVE : Nat := 1 <<< 13

/-- Constant `InputSignal.START` from `cvd_define.py` (bit 3). -/
def InputSignal_START : Nat := 1 <<< 3

/-- Embeds `MotorDriver.is_moving()`: `read_output_signal` yields the raw status
register (`none` on a failed read); a failed read returns `False`,
otherwise the `MOVE` bit is tested. -/
def is_moving (status : Option Nat) : Bool :=
  match status with
  | none => false
  | some s => decide ((s &&& OutputSignal_MOVE) ≠ 0)

/-- Embeds `MotorDriver.start_operation(op_no)`: returns `False` with no
register write for `op_no > 7`; otherwise writes
`(op_no & 0x07) | InputSignal.START` to input-command register `0x007D`
and — when the write is acknowledged (`writeOk`) — clears the register to
`0` and returns `True`.  The second component is the ordered list of
`(address, value)` register writes. -/
def driverStartOperation (opNo : Nat) (writeOk : Bool) : Bool × List (Nat × Nat) :=
  if opNo > 7 then (false, [])
  else
    let cmd := (opNo &&& 0x07) ||| InputSignal_START
    if writeOk then (true, [(0x7D, cmd), (0x7D, 0)])
    else (false, [(0x7D, cmd)])

/-- The `motor_states` list of the monitor after poll ticks `0 … t-1` have
been processed. -/
def statesAt (read : Nat → Nat → Bool) (n t : Nat) : List MotorMState :=
  (List.range n).map (fun i => mstate (read i) t)

/-!  Theorems. -/

theorem list_all_map_general {α β : Type} (l : List α) (f : α → β) (p : β → Bool) :
    (l.map f).all p = l.all (fun x => p (f x)) := by
  induction l with
  | nil => rfl
  | cons a t ih => simp [List.all_cons, ih]

theorem movedBy_succ (mv : Nat → Bool) (t : Nat) :
    movedBy mv (t + 1) = (movedBy mv t || mv t) := by
  simp [movedBy, List.range_succ]

theorem fallenBy_succ (mv : Nat → Bool) (t : Nat) :
    fallenBy mv (t + 1) = (fallenBy mv t || (!(mv t) && movedBy mv t)) := by
  simp [fallenBy, movedBy, List.range_succ]

theorem fallenBy_imp_movedBy (mv : Nat → Bool) (t : Nat)
    (h : fallenBy mv t = true) : movedBy mv t = true := by
  simp only [fallenBy, List.any_eq_true, List.mem_range, Bool.and_eq_true,
    Bool.not_eq_true'] at h
  obtain ⟨b, hb, _, a, ha, hmv⟩ := h
  simp only [movedBy, List.any_eq_true, List.mem_range]
  exact ⟨a, by omega, hmv⟩

theorem mstate_eq (mv : Nat → Bool) (t : Nat) :
    mstate mv t = ⟨movedBy mv t, movedBy mv t, fallenBy mv t⟩ := by
  induction t with
  | zero => simp [mstate, initMState, movedBy, fallenBy]
  | succ t ih =>
    rw [mstate, ih, movedBy_succ, fallenBy_succ]
    by_cases hF : fallenBy mv t = true
    · have hM := fallenBy_imp_movedBy mv t hF
      simp [stepMotor, hF, hM]
    · simp only [Bool.not_eq_true] at hF
      cases hmv : mv t <;> cases hm : movedBy mv t <;>
        simp [stepMotor, hF, hmv, hm]

theorem statesAt_zero (read : Nat → Nat → Bool) (n : Nat) :
    statesAt read n 0 = initStates n := by
  simp [statesAt, initStates, mstate, List.map_const']

theorem stepAll_statesAt (read : Nat → Nat → Bool) (n t : Nat) :
    stepAll (statesAt read n t) (readsAt read n t) = statesAt read n (t + 1) := by
  simp only [stepAll, statesAt, readsAt, List.zipWith_map_left,
    List.zipWith_map_right, List.zipWith_same]
  rfl

theorem allFinished_statesAt (read : Nat → Nat → Bool) (n t : Nat) :
    allFinished (statesAt read n (t + 1)) = groupDone read n t := by
  simp only [allFinished, statesAt, groupDone,
    list_all_map_general (List.range n) (fun i => mstate (read i) (t + 1))]
  congr 1
  funext i
  rw [mstate_eq]

theorem monitorFrom_timeout (read : Nat → Nat → Bool) (n : Nat) :
    ∀ fuel t, (∀ u, t ≤ u → u < t + fuel → groupDone read n u = false) →
    monitorFrom read n (statesAt read n t) t fuel = ⟨[], MotorState.error⟩ := by
  intro fuel
  induction fuel with
  | zero => intro t _; rfl
  | succ fuel ih =>
    intro t h
    have hg : groupDone read n t = false := h t (Nat.le_refl t) (by omega)
    rw [monitorFrom]
    simp only [stepAll_statesAt, allFinished_statesAt, hg, Bool.false_eq_true, if_false]
    exact ih (t + 1) (fun u hu hu2 => h u (by omega) (by omega))

theorem monitorFrom_fires (read : Nat → Nat → Bool) (n : Nat) :
    ∀ fuel t u, t ≤ u → u < t + fuel → groupDone read n u = true →
    (∀ v, t ≤ v → v < u → groupDone read n v = false) →
    monitorFrom read n (statesAt read n t) t fuel = ⟨[u], MotorState.ready⟩ := by
  intro fuel
  induction fuel with
  | zero => intro t u h1 h2 _ _; omega
  | succ fuel ih =>
    intro t u h1 h2 hdone hfirst
    rw [monitorFrom]
    by_cases ht : t = u
    · subst ht
      simp [stepAll_statesAt, allFinished_statesAt, hdone]
    · have htu : t < u := by omega
      have hg : groupDone read n t = false := hfirst t (Nat.le_refl t) htu
      simp only [stepAll_statesAt, allFinished_statesAt, hg, Bool.false_eq_true, if_false]
      exact ih (t + 1) u (by omega) (by omega) hdone
        (fun v hv hv2 => hfirst v (by omega) hv2)

theorem fallenBy_const_false (t : Nat) : fallenBy (fun _ => false) t = false := by
  simp [fallenBy]

theorem groupDone_const_false (n u : Nat) :
    groupDone (fun _ _ => false) (n + 1) u = false := by
  apply Bool.eq_false_iff.mpr
  intro h
  rw [groupDone, List.all_eq_true] at h
  have h0 := h 0 (by simp)
  simp only [fallenBy_const_false] at h0
  exact Bool.false_ne_true h0

/-- C1 (amended): the operation-completion monitor fires the finished
callback exactly once, at the first poll tick at which every actuator in
the request has shown a falling edge of its `moving` flag (read true at
some earlier tick, then false at a later tick), provided that tick comes
before the timeout ceiling; the controller then ends in `READY`.  (The
grace-window alternative of the claim for never-moving actuators does not
exist in the code — see the counterexample.) -/
theorem monitor_completion_barrier (read : Nat → Nat → Bool) (n fuel u : Nat)
    (hu : u < fuel) (hdone : groupDone read n u = true)
    (hfirst : ∀ v, v < u → groupDone read n v = false) :
    monitorRun read n fuel = ⟨[u], MotorState.ready⟩ ∧
    (monitorRun read n fuel).callbackTicks.length = 1 := by
  have h := monitorFrom_fires read n fuel 0 u (Nat.zero_le u) (by omega) hdone
    (fun v _ hv => hfirst v hv)
  rw [statesAt_zero] at h
  unfold monitorRun
  rw [h]
  exact ⟨rfl, rfl⟩

/-- Witness for C1: one motor that reads moving at tick 0 and not moving
from tick 1 on completes the barrier at tick 1, firing once and ending
`READY`. -/
theorem monitor_completion_barrier_witness :
    monitorRun (fun _ t => decide (t = 0)) 1 5 = ⟨[1], MotorState.ready⟩ :=
  (monitor_completion_barrier (fun _ t => decide (t = 0)) 1 5 1 (by decide) (by decide)
    (fun v hv => by
      have hv0 : v = 0 := Nat.lt_one_iff.mp hv
      subst hv0
      decide)).1

/-- Counterexample for C1: for a single actuator whose `moving` flag
never reads true, the monitor never fires the finished callback — the
run exhausts the hard ceiling (60000 s at one poll per 0.1 s, i.e.
600000 polls) and ends in `ERROR` — whereas the claim promises a
finished callback after the bounded no-motion grace window. -/
theorem monitor_no_grace_window_counterexample :
    (monitorRun (fun _ _ => false) 1 600000).callbackTicks = [] ∧
    (monitorRun (fun _ _ => false) 1 600000).finalState = MotorState.error ∧
    MotorState.error ≠ MotorState.ready := by
  have h := monitorFrom_timeout (fun _ _ => false) 1 600000 0
    (fun u _ _ => groupDone_const_false 0 u)
  rw [statesAt_zero] at h
  unfold monitorRun
  rw [h]
  exact ⟨rfl, rfl, by decide⟩

theorem rtzToM_step (m : RtzMState) (b : Bool) :
    rtzToM (stepRtzMotor m b) = stepMotor (rtzToM m) b := by
  rcases m with ⟨a, w, f⟩
  cases f <;> simp [rtzToM, stepRtzMotor, stepMotor]

theorem allFinished_map_rtzToM (ms : List RtzMState) :
    allFinished (ms.map rtzToM) = allFinishedRtz ms := by
  simp [allFinished, allFinishedRtz, list_all_map_general, rtzToM]

theorem rtzMonitorFrom_eq (read : Nat → Nat → Bool) (n : Nat) :
    ∀ fuel t ms, rtzMonitorFrom read n ms t fuel =
      monitorFrom read n (ms.map rtzToM) t fuel := by
  intro fuel
  induction fuel with
  | zero => intro t ms; rfl
  | succ fuel ih =>
    intro t ms
    have hstep : (stepAllRtz ms (readsAt read n t)).map rtzToM =
        stepAll (ms.map rtzToM) (readsAt read n t) := by
      simp only [stepAllRtz, stepAll, List.map_zipWith, List.zipWith_map_left]
      congr 1
      funext a b
      exact rtzToM_step a b
    rw [rtzMonitorFrom, monitorFrom]
    simp only [← hstep, allFinished_map_rtzToM]
    by_cases hc : allFinishedRtz (stepAllRtz ms (readsAt read n t)) = true
    · simp [hc]
    · simp only [Bool.not_eq_true] at hc
      simp only [hc, Bool.false_eq_true, if_false]
      exact ih (t + 1) (stepAllRtz ms (readsAt read n t))

theorem rtzMonitorRun_eq_monitorRun (read : Nat → Nat → Bool) (n fuel : Nat) :
    rtzMonitorRun read n fuel = monitorRun read n fuel := by
  unfold rtzMonitorRun monitorRun
  rw [rtzMonitorFrom_eq]
  congr 1
  simp [List.map_replicate, initStates, rtzToM, initRtzMState, initMState]

/-- C2 (amended): a `stop()` on a station configured to retract to the
origin (with the event loop available) issues the hardware halt to every
driver and then the return-to-origin command to every driver, schedules
the return-to-zero monitor as a background task, and leaves
`self.state` unchanged — state only becomes `READY` when that monitor
observes the group falling-edge completion (at the first such tick).
The return-to-zero monitor steps each motor with exactly the per-actuator
completion predicate of the operation monitor. -/
theorem stop_with_return_to_zero (n : Nat) (st : MotorState) (mon : Bool)
    (read : Nat → Nat → Bool) (fuel u : Nat) (hu : u < fuel)
    (hdone : groupDone read n u = true)
    (hfirst : ∀ v, v < u → groupDone read n v = false) :
    ctrlStop true true n st mon =
      ⟨(List.range n).map DriverCmd.stop ++
        (List.range n).map (fun i => DriverCmd.returnToZero i 5000), mon, true, st⟩ ∧
    (∀ m b, rtzToM (stepRtzMotor m b) = stepMotor (rtzToM m) b) ∧
    rtzMonitorRun read n fuel = ⟨[u], MotorState.ready⟩ := by
  refine ⟨rfl, rtzToM_step, ?_⟩
  have h := monitorFrom_fires read n fuel 0 u (Nat.zero_le u) (by omega) hdone
    (fun v _ hv => hfirst v hv)
  rw [statesAt_zero] at h
  rw [rtzMonitorRun_eq_monitorRun]
  unfold monitorRun
  rw [h]

/-- Witness for C2 at one motor in `RUNNING` with an active monitor, the
return-to-zero motion showing moving at tick 0 and stopped from tick 1. -/
theorem stop_with_return_to_zero_witness :
    ctrlStop true true 1 MotorState.running true =
      ⟨(List.range 1).map DriverCmd.stop ++
        (List.range 1).map (fun i => DriverCmd.returnToZero i 5000), true, true,
        MotorState.running⟩ ∧
    rtzMonitorRun (fun _ t => decide (t = 0)) 1 5 = ⟨[1], MotorState.ready⟩ := by
  have h := stop_with_return_to_zero 1 MotorState.running true
    (fun _ t => decide (t = 0)) 5 1 (by decide) (by decide)
    (fun v hv => by
      have hv0 : v = 0 := Nat.lt_one_iff.mp hv
      subst hv0
      decide)
  exact ⟨h.1, h.2.2⟩

/-- Counterexample for C2: with return-to-origin configured and the event
loop available, `stop()` entered in `RUNNING` returns with the state
still `RUNNING`, not `READY`, even though the halt has been issued to
every actuator — the assertion of the claim that state is Ready once the
halt is issued is false. -/
theorem stop_return_to_zero_state_counterexample :
    (ctrlStop true true 1 MotorState.running true).stateAfter = MotorState.running ∧
    (ctrlStop true true 1 MotorState.running true).cmds =
      [DriverCmd.stop 0, DriverCmd.returnToZero 0 5000] ∧
    MotorState.running ≠ MotorState.ready := by
  decide

/-- Helper: an uninterrupted `_loop_next_cycle` (looping flag true at
every check) increments the counter and restarts in `RUNNING`. -/
theorem loopNextCycleAux_true (s : SeqState) : ∀ r k,
    loopNextCycleAux (fun _ => true) k r s =
      ({ s with state := SystemState.running, cycle_count := s.cycle_count + 1 }, true) := by
  intro r
  induction r with
  | zero => intro k; rfl
  | succ r ih => intro k; rw [loopNextCycleAux]; simpa using ih (k + 1)

/-- C3 (amended): `on_stop_pressed` and `on_reset_pressed` clear the
looping flag but leave the cycle counter untouched (it is not reset to
0); the counter is set to 1 by `on_start_pressed` and incremented at the
start of each repeated run of `_loop_next_cycle`. -/
theorem cycle_counter_on_stop_reset_loop (s : SeqState) (d : Nat) :
    (on_stop_pressed s).cycle_count = s.cycle_count ∧
    (on_stop_pressed s).is_looping = false ∧
    (on_stop_pressed s).state = SystemState.stopped ∧
    (on_reset_pressed s).cycle_count = s.cycle_count ∧
    (on_reset_pressed s).is_looping = false ∧
    (on_start_pressed ⟨SystemState.ready, s.is_looping, s.cycle_count⟩).1.cycle_count = 1 ∧
    loop_next_cycle (fun _ => true) d s =
      ({ s with state := SystemState.running, cycle_count := s.cycle_count + 1 }, true) :=
  ⟨rfl, rfl, rfl, rfl, rfl, rfl, loopNextCycleAux_true s d 0⟩

/-- Counterexample for C3: neither the stop handler nor the reset handler
resets the cycle counter to 0. -/
theorem cycle_counter_not_reset_counterexample :
    (on_stop_pressed ⟨SystemState.running, true, 5⟩).cycle_count = 5 ∧
    (on_reset_pressed ⟨SystemState.stopped, false, 7⟩).cycle_count = 7 ∧
    (5 : Nat) ≠ 0 ∧ (7 : Nat) ≠ 0 := by
  decide

/-- C4 (amended): the `clear_alarm` of the controller issues a fault-clear to
every driver and never by itself changes the actuator state; the
clear handler of the orchestrator transitions `ERROR` to `READY` after
delegating, but does so unconditionally — it consults no per-actuator
fault flag. -/
theorem clear_alarm_state_effects (n : Nat) (st : MotorState)
    (faults : Nat → Bool) (s : SeqState) :
    (ctrlClearAlarm n st).1 = st ∧
    (ctrlClearAlarm n st).2 = (List.range n).map DriverCmd.clearAlarm ∧
    on_clear_alarm_pressed faults n s =
      (if s.state = SystemState.error then { s with state := SystemState.ready } else s) :=
  ⟨rfl, rfl, rfl⟩

/-- Counterexample for C4: with the modelled post-clear fault flag still
active on the only actuator, the handler nevertheless transitions the
system from `ERROR` to `READY` — recovery is not gated on confirming that
no fault flag remains. -/
theorem clear_fault_recovery_blind_counterexample :
    on_clear_alarm_pressed (fun _ => true) 1 ⟨SystemState.error, false, 3⟩ =
      ⟨SystemState.ready, false, 3⟩ ∧
    (fun _ : Nat => true) 0 = true := by
  decide

/-- C5 (amended): if the group-finish condition is not reached within the
hard ceiling — 60000 seconds in the code (its comment: 1000 minutes),
not "several minutes" — the monitor aborts with no finished callback and
the controller transitions to `ERROR` (the `Fault` of the spec). -/
theorem monitor_timeout_transitions_to_fault (read : Nat → Nat → Bool) (n fuel : Nat)
    (h : ∀ u, u < fuel → groupDone read n u = false) :
    monitorRun read n fuel = ⟨[], MotorState.error⟩ ∧
    operationTimeoutCeilingSec = 60000 := by
  have hh := monitorFrom_timeout read n fuel 0 (fun u _ hu => h u (by omega))
  rw [statesAt_zero] at hh
  exact ⟨hh, rfl⟩

/-- Witness for C5: one never-moving motor and a two-poll ceiling. -/
theorem monitor_timeout_witness :
    monitorRun (fun _ _ => false) 1 2 = ⟨[], MotorState.error⟩ :=
  (monitor_timeout_transitions_to_fault (fun _ _ => false) 1 2
    (fun u hu => by interval_cases u <;> decide)).1

/-- Counterexample for C5: the hard ceiling of the code is 60000 seconds,
which exceeds any "several minutes" design value (even a generous
ten-minute reading). -/
theorem timeout_ceiling_exceeds_minutes_counterexample :
    operationTimeoutCeilingSec = 60000 ∧ severalMinutesMaxSec = 600 ∧
    ¬ (operationTimeoutCeilingSec ≤ severalMinutesMaxSec) := by
  decide

/-- C6: `start_operation` issued while the controller state is not
`READY` issues no hardware command, starts no monitor, and changes
neither the state nor the current operation. -/
theorem start_operation_rejected_not_ready (opNo n : Nat) (la : Bool)
    (st : MotorState) (cur : Option Nat) (h : st ≠ MotorState.ready) :
    ctrlStartOperation opNo n la st cur = ⟨[], false, st, cur⟩ := by
  unfold ctrlStartOperation
  rw [if_pos h]

/-- Witness for C6 at `RUNNING`. -/
theorem start_operation_rejected_witness :
    ctrlStartOperation 3 2 true MotorState.running none =
      ⟨[], false, MotorState.running, none⟩ :=
  start_operation_rejected_not_ready 3 2 true MotorState.running none (by decide)

/-- Helper: if the looping flag reads false at the j-th of the remaining
checks of `_loop_next_cycle`, the loop returns without starting a cycle
and without touching the counter. -/
theorem loopNextCycleAux_cancelled (flagAt : Nat → Bool) (s : SeqState) :
    ∀ r k j, j ≤ r → flagAt (k + j) = false →
    (loopNextCycleAux flagAt k r s).2 = false ∧
    (loopNextCycleAux flagAt k r s).1.cycle_count = s.cycle_count := by
  intro r
  induction r with
  | zero =>
    intro k j hj hf
    have hj0 : j = 0 := Nat.le_zero.mp hj
    subst hj0
    rw [Nat.add_zero] at hf
    simp [loopNextCycleAux, hf]
  | succ r ih =>
    intro k j hj hf
    rw [loopNextCycleAux]
    by_cases hk : flagAt k = true
    · have hj0 : j ≠ 0 := by
        intro h0
        subst h0
        rw [Nat.add_zero] at hf
        rw [hf] at hk
        exact Bool.false_ne_true hk
      obtain ⟨j2, rfl⟩ := Nat.exists_eq_succ_of_ne_zero hj0
      have hf2 : flagAt (k + 1 + j2) = false := by
        rw [show k + 1 + j2 = k + (j2 + 1) by omega]
        exact hf
      simpa [hk] using ih (k + 1) j2 (by omega) hf2
    · simp only [Bool.not_eq_true] at hk
      simp [hk]

/-- C7: if, during the inter-cycle delay, the looping flag is read false
at any of the checks (one per countdown second plus the post-wait check)
— as happens when `stop()` clears it during the delay — then
`_loop_next_cycle` does not increment the cycle counter and does not
re-issue `start_operation`. -/
theorem stop_during_delay_no_next_cycle (flagAt : Nat → Bool) (d : Nat) (s : SeqState)
    (k : Nat) (hk : k ≤ d) (hf : flagAt k = false) :
    (loop_next_cycle flagAt d s).2 = false ∧
    (loop_next_cycle flagAt d s).1.cycle_count = s.cycle_count := by
  have h := loopNextCycleAux_cancelled flagAt s d 0 k hk (by simpa using hf)
  simpa [loop_next_cycle] using h

/-- Witness for C7: flag cleared before the first check of a 3-second
delay — no restart, counter unchanged. -/
theorem stop_during_delay_witness :
    (loop_next_cycle (fun _ => false) 3 ⟨SystemState.finished, false, 2⟩).2 = false ∧
    (loop_next_cycle (fun _ => false) 3 ⟨SystemState.finished, false, 2⟩).1.cycle_count = 2 :=
  stop_during_delay_no_next_cycle (fun _ => false) 3 ⟨SystemState.finished, false, 2⟩ 0
    (by decide) (by decide)

/-- C8: a station with zero configured actuators completes
`initialize()` immediately — state `READY`, ready callback invoked, no
error, and not a single driver call — whatever the homing configuration
and driver environment. -/
theorem empty_station_initializes_ready (hr : Bool) (env : DriverEnv) :
    initializeCtrl hr 0 env = ⟨[], true, false, MotorState.ready⟩ := by
  cases hr <;> rfl

/-- C9: a failed status-register read makes `is_moving()` return
`False` (indistinguishable from "not moving"), and therefore one such
failed read on a motor that has already been observed moving satisfies
the falling-edge completion test of that motor in the monitor. -/
theorem failed_read_is_falling_edge (mv : Nat → Bool) (t : Nat)
    (h : movedBy mv t = true) :
    is_moving none = false ∧
    (stepMotor (mstate mv t) (is_moving none)).finished = true := by
  refine ⟨rfl, ?_⟩
  rw [mstate_eq, h]
  cases hF : fallenBy mv t <;> simp [stepMotor, is_moving]

/-- Witness for C9: a motor observed moving at tick 0. -/
theorem failed_read_witness :
    is_moving none = false ∧
    (stepMotor (mstate (fun _ => true) 1) (is_moving none)).finished = true :=
  failed_read_is_falling_edge (fun _ => true) 1 (by decide)

/-- C10: `MotorDriver.start_operation` returns `False` and writes no
register for `op_no > 7`; for `op_no ≤ 7` (write acknowledged) it writes
`(op_no & 0x07) | START` — whose bits 0–2 decode back to `op_no` and
whose START bit (bit 3) is set — to input-command register `0x007D`, and
then clears the register to 0. -/
theorem driver_start_operation_encoding :
    (∀ opNo ok, opNo > 7 → driverStartOperation opNo ok = (false, [])) ∧
    (∀ opNo, opNo ≤ 7 →
      driverStartOperation opNo true =
        (true, [(0x7D, (opNo &&& 0x07) ||| InputSignal_START), (0x7D, 0)]) ∧
      (opNo &&& 0x07) ||| InputSignal_START = opNo + 8 ∧
      ((opNo &&& 0x07) ||| InputSignal_START) &&& 0x07 = opNo ∧
      ((opNo &&& 0x07) ||| InputSignal_START) &&& InputSignal_START = InputSignal_START) := by
  constructor
  · intro opNo ok h
    unfold driverStartOperation
    rw [if_pos h]
  · intro opNo h
    interval_cases opNo <;> exact ⟨by decide, by decide, by decide, by decide⟩

/-- Witness for C10: operation 9 is refused with no write; operation 2
writes `0x000A` then clears. -/
theorem driver_start_operation_witness :
    driverStartOperation 9 true = (false, []) ∧
    driverStartOperation 2 true = (true, [(0x7D, 10), (0x7D, 0)]) :=
  ⟨driver_start_operation_encoding.1 9 true (by decide),
   ((driver_start_operation_encoding.2 2 (by decide)).1).trans (by decide)⟩
